import Mathlib

/-!
Verification of the response-normalization layer of the keysight_b1530a
package: the `check_error` / `strip_error_code` / `handle_wgfmu_response`
decorators from `errors.py` and `utils.py`, and the binding functions
`open_session`, `get_error_summary`, `add_vectors` and
`get_measurement_data` built on top of them.

Python values passing through the wrappers are embedded as the inductive
`PyVal`; Python exceptions as `PyErr`; a computation that may raise is an
`Except PyErr PyVal`.  Python floats are represented by `Rat` (only their
identity matters here, never rounding).
-/

namespace B1530A

/-- A Python runtime value as it flows through the WGFMU wrappers:
`None`, an `int`, a `str`, a `list`, a `tuple`, or a numpy `float` array. -/
inductive PyVal where
  | none : PyVal
  | int (n : Int) : PyVal
  | str (s : String) : PyVal
  | list (xs : List PyVal) : PyVal
  | tuple (xs : List PyVal) : PyVal
  | array (xs : List Rat) : PyVal
  deriving Repr

/-- Structural equality test on `PyVal` (Python `==` restricted to the
shapes above). -/
def PyVal.beq : PyVal → PyVal → Bool
  | .none, .none => true
  | .int a, .int b => a == b
  | .str a, .str b => a == b
  | .list a, .list b => beqList a b
  | .tuple a, .tuple b => beqList a b
  | .array a, .array b => a == b
  | _, _ => false
where
  beqList : List PyVal → List PyVal → Bool
  | [], [] => true
  | x :: xs, y :: ys => PyVal.beq x y && beqList xs ys
  | _, _ => false

theorem PyVal.beq_iff : ∀ a b : PyVal, PyVal.beq a b = true ↔ a = b := by
  intro a
  induction a using PyVal.rec
    (motive_2 := fun xs => ∀ ys, PyVal.beq.beqList xs ys = true ↔ xs = ys) with
  | none => intro b; cases b <;> simp [PyVal.beq]
  | int n => intro b; cases b <;> simp [PyVal.beq]
  | str s => intro b; cases b <;> simp [PyVal.beq]
  | list xs ih =>
      intro b; cases b <;> simp [PyVal.beq]
      exact ih _
  | tuple xs ih =>
      intro b; cases b <;> simp [PyVal.beq]
      exact ih _
  | array xs => intro b; cases b <;> simp [PyVal.beq]
  | nil =>
      rename_i ys; cases ys <;> simp [PyVal.beq.beqList]
  | cons x xs ihx ihxs =>
      rename_i ys
      cases ys with
      | nil => simp [PyVal.beq.beqList]
      | cons y ys => simp [PyVal.beq.beqList, ihx, ihxs]

instance : DecidableEq PyVal := fun a b =>
  decidable_of_iff (PyVal.beq a b = true) (PyVal.beq_iff a b)

instance {ε α : Type} [DecidableEq ε] [DecidableEq α] : DecidableEq (Except ε α) := fun a b =>
  match a, b with
  | .ok x, .ok y =>
      if h : x = y then isTrue (by rw [h]) else isFalse (fun he => h (by injection he))
  | .error x, .error y =>
      if h : x = y then isTrue (by rw [h]) else isFalse (fun he => h (by injection he))
  | .ok _, .error _ => isFalse (fun he => Except.noConfusion he)
  | .error _, .ok _ => isFalse (fun he => Except.noConfusion he)

/-- Membership test of `WGFMUErrorCode` (errors.py): the enum holds `0`,
`-1` through `-15`, and `ERROR_CODE_MIN = -9999`. -/
def WGFMUErrorCode_member (c : Int) : Bool :=
  c = 0 || (-15 ≤ c && c ≤ -1) || c = -9999

/-- The static `ERROR_MESSAGES` table of errors.py, keyed by the numeric
value of the `WGFMUErrorCode` member.  `-9999` (`ERROR_CODE_MIN`) has no
entry. -/
def ERROR_MESSAGES (c : Int) : Option String :=
  if c = 0 then some "No error."
  else if c = -1 then some "Invalid parameter value was found. It will be out of the range. Set the effective parameter value."
  else if c = -2 then some "Invalid string value was found. It will be empty or illegal (pointer). Set the effective string value."
  else if c = -3 then some "Context error was found between relative functions. Set the effective parameter value."
  else if c = -4 then some "Specified function is not supported by this channel. Set the channel id properly."
  else if c = -5 then some "IO library error was found."
  else if c = -6 then some "Firmware error was found."
  else if c = -7 then some "WGFMU instrument library error was found."
  else if c = -8 then some "Unidentified error was found."
  else if c = -9 then some "Specified channel id is not available for WGFMU. Set the channel id properly."
  else if c = -10 then some "Unexpected pattern name was specified. Specify the effective pattern name. Or create a new pattern."
  else if c = -11 then some "Unexpected event name was specified. Specify the effective event name."
  else if c = -12 then some "Duplicate pattern name was specified. Specify the unique pattern name."
  else if c = -13 then some "Sequencer must be run to execute the specified function. Run the sequencer."
  else if c = -14 then some "Measurement is in progress. Read the result data after the measurement is completed."
  else if c = -15 then some "Measurement result data was deleted by the setup change. The result data must be read before changing the waveform setup or the measurement setup."
  else Option.none

/-- The `WGFMUError` exception object of errors.py: carries the numeric
`code`, the resolved enum member when the code is one (`error_enum`), and
the resolved or fallback `message`. -/
structure WGFMUError where
  code : Int
  error_enum : Option Int
  message : String
  deriving DecidableEq, Repr

/-- `WGFMUError.__init__` (errors.py): try to convert `code` to a
`WGFMUErrorCode` member; on success look the member up in
`ERROR_MESSAGES` with the fallback `"Unknown error code: {code}"`; when
the conversion raises `ValueError` use the fallback directly. -/
def WGFMUError.ofCode (code : Int) : WGFMUError :=
  if WGFMUErrorCode_member code then
    { code := code
      error_enum := some code
      message := (ERROR_MESSAGES code).getD ("Unknown error code: " ++ toString code) }
  else
    { code := code
      error_enum := Option.none
      message := "Unknown error code: " ++ toString code }

/-- A raised Python exception: a `WGFMUError`, an `IndexError` (tuple
indexing out of range), a `ValueError` with its message, a `TypeError`,
or the `UnboundLocalError` raised when a local is read before
assignment. -/
inductive PyErr where
  | wgfmu (e : WGFMUError) : PyErr
  | indexError : PyErr
  | valueError (msg : String) : PyErr
  | typeError : PyErr
  | unboundLocalError : PyErr
  deriving DecidableEq, Repr

/-- The body of `check_error`'s wrapper (errors.py): raise
`WGFMUError(result)` when `result` is a negative `int`, raise
`WGFMUError(result[0])` when `result` is a tuple whose first element is a
negative `int` (indexing `result[0]` on an empty tuple raises
`IndexError`), otherwise return `result` unchanged. -/
def check_error (result : PyVal) : Except PyErr PyVal :=
  match result with
  | .int n => if n < 0 then .error (.wgfmu (WGFMUError.ofCode n)) else .ok (.int n)
  | .tuple [] => .error .indexError
  | .tuple (x :: xs) =>
      match x with
      | .int n =>
          if n < 0 then .error (.wgfmu (WGFMUError.ofCode n))
          else .ok (.tuple (.int n :: xs))
      | _ => .ok (.tuple (x :: xs))
  | r => .ok r

/-- The body of `strip_error_code`'s wrapper (utils.py): a bare `int`
becomes `None`; a tuple whose first element is an `int` loses that
element, the single remaining element being returned bare and any other
number of remaining elements as a tuple (indexing `result[0]` on an
empty tuple raises `IndexError`); anything else is returned unchanged. -/
def strip_error_code (result : PyVal) : Except PyErr PyVal :=
  match result with
  | .int _ => .ok .none
  | .tuple [] => .error .indexError
  | .tuple (x :: rest) =>
      match x with
      | .int _ =>
          match rest with
          | [r] => .ok r
          | _ => .ok (.tuple rest)
      | _ => .ok (.tuple (x :: rest))
  | r => .ok r

/-- `handle_wgfmu_response` (utils.py) is literally
`strip_error_code(check_error(func))`: the checking wrapper sees the raw
result first and its exception propagates past the stripping wrapper. -/
def handle_wgfmu_response (result : PyVal) : Except PyErr PyVal :=
  (check_error result).bind strip_error_code

/-- A call into the foreign WGFMU library, recorded so that theorems can
speak about whether a foreign call was attempted. -/
inductive FFICall where
  | addVectors (name : String) (time_steps voltages : List Rat) (count : Nat) : FFICall
  deriving DecidableEq, Repr

/-- `add_vectors` (_bindings/pattern_setup.py), wrapped with
`@handle_wgfmu_response`.  The body first validates that `time_steps`
and `voltages` have equal length, raising `ValueError` before any
foreign call; only then does it invoke `lib.WGFMU_addVectors`, whose
integer status `libResult` then flows through the wrapper.  The first
component of the result is the trace of foreign calls made. -/
def add_vectors (name : String) (time_steps voltages : List Rat) (libResult : Int) :
    List FFICall × Except PyErr PyVal :=
  if time_steps.length ≠ voltages.length then
    ([], .error (.valueError "time_steps and voltages must have the same length."))
  else
    ([.addVectors name time_steps voltages time_steps.length],
     handle_wgfmu_response (.int libResult))

/-- `open_session` (_bindings/initialization.py).  It is wrapped only
with `@strip_error_code` — the source comment says this is deliberate,
so that an already-open session does not raise.  `libResult` is the
integer status returned by `lib.WGFMU_openSession`. -/
def open_session (libResult : Int) : Except PyErr PyVal :=
  strip_error_code (.int libResult)

/-- `get_error_summary` (_bindings/errors.py), wrapped only with
`@strip_error_code`.  `sizeStatus` is the status returned by
`lib.WGFMU_getErrorSummarySize`, `size` the value it wrote through the
pointer, and `buffer` the decoded summary string read by
`lib.WGFMU_getErrorSummary` when `size > 0`. -/
def get_error_summary (sizeStatus size : Int) (buffer : String) : Except PyErr PyVal :=
  if size > 0 then
    strip_error_code (.tuple [.int sizeStatus, .str buffer])
  else
    strip_error_code (.tuple [.int sizeStatus, .str "No errors found."])

/-- `_get_measurement_data_size` (_bindings/data_retrieval.py), wrapped
with `@handle_wgfmu_response`.  The raw body returns the pair
`(error_code, measured_size)` read from `lib.WGFMU_getMeasureValueSize`. -/
def _get_measurement_data_size (sizeStatus measuredSize : Int) : Except PyErr PyVal :=
  handle_wgfmu_response (.tuple [.int sizeStatus, .int measuredSize])

/-- The raw body of `get_measurement_data` (_bindings/data_retrieval.py),
before its own `@handle_wgfmu_response` wrapper.  `readPoint i` is the
triple `(error_code, time, value)` produced by
`lib.WGFMU_getMeasureValue(channel, i, ...)`.  The body queries the
measured size, allocates `np.zeros(num_points)` (which raises
`ValueError` on a negative size and `TypeError` on a non-integer one),
runs the read loop, and returns
`(error_code, np.array(times), np.array(values))` — where `error_code`
is the loop variable of the final iteration and is therefore unbound
(`UnboundLocalError`) when the loop ran zero times. -/
def get_measurement_data_raw (sizeStatus measuredSize : Int)
    (readPoint : Nat → Int × Rat × Rat) : Except PyErr PyVal :=
  match _get_measurement_data_size sizeStatus measuredSize with
  | .error e => .error e
  | .ok v =>
      match v with
      | .int n =>
          if n < 0 then .error (.valueError "negative dimensions are not allowed")
          else
            let pts := (List.range n.toNat).map readPoint
            match pts.getLast? with
            | Option.none => .error .unboundLocalError
            | Option.some lastPt =>
                .ok (.tuple [.int lastPt.1,
                             .array (pts.map fun p => p.2.1),
                             .array (pts.map fun p => p.2.2)])
      | _ => .error .typeError

/-- `get_measurement_data` (_bindings/data_retrieval.py): the raw body
above run through its `@handle_wgfmu_response` wrapper. -/
def get_measurement_data (sizeStatus measuredSize : Int)
    (readPoint : Nat → Int × Rat × Rat) : Except PyErr PyVal :=
  (get_measurement_data_raw sizeStatus measuredSize readPoint).bind handle_wgfmu_response

/-! ### Helper lemmas -/

theorem ERROR_MESSAGES_eq_none_of_out_of_range (c : Int) (h0 : c ≠ 0)
    (hout : c < -15 ∨ -1 < c) : ERROR_MESSAGES c = Option.none := by
  unfold ERROR_MESSAGES
  repeat' rw [if_neg (by omega)]

theorem ofCode_message_ne_empty (c : Int) : (WGFMUError.ofCode c).message ≠ "" := by
  by_cases hin : c = 0 ∨ (-15 ≤ c ∧ c ≤ -1)
  · rcases hin with rfl | ⟨h1, h2⟩
    · decide
    · interval_cases c <;> decide
  · push_neg at hin
    obtain ⟨h0, h15⟩ := hin
    have hnone : ERROR_MESSAGES c = Option.none :=
      ERROR_MESSAGES_eq_none_of_out_of_range c h0 (by omega)
    have hfb : ("Unknown error code: " ++ toString c) ≠ "" := by
      intro h
      have h1 := congrArg String.length h
      rw [String.length_append] at h1
      have h2 : ("Unknown error code: ").length = 20 := rfl
      have h3 : ("" : String).length = 0 := rfl
      omega
    unfold WGFMUError.ofCode
    split <;> simp [hnone] <;> exact hfb

/-! ### Claims -/

/-- C1: `check_error`'s wrapper raises a `WGFMUError` if and only if the
result is a bare negative integer or a tuple whose first element is a
negative integer; every bare integer `≥ 0` and every tuple whose integer
first element is `≥ 0` (including the positive status codes
10000–10006) is returned completely unchanged. -/
theorem check_error_negative_iff_passthrough :
    (∀ r : PyVal,
      (∃ e, check_error r = .error (.wgfmu e)) ↔
        ((∃ n : Int, n < 0 ∧ r = .int n) ∨
         (∃ (n : Int) (rest : List PyVal), n < 0 ∧ r = .tuple (.int n :: rest)))) ∧
    (∀ n : Int, 0 ≤ n → check_error (.int n) = .ok (.int n)) ∧
    (∀ (n : Int) (rest : List PyVal), 0 ≤ n →
      check_error (.tuple (.int n :: rest)) = .ok (.tuple (.int n :: rest))) := by
  refine ⟨?_, ?_, ?_⟩
  · intro r
    constructor
    · intro ⟨e, he⟩
      match r with
      | .none | .str _ | .list _ | .array _ => simp [check_error] at he
      | .int n =>
          by_cases hn : n < 0
          · exact Or.inl ⟨n, hn, rfl⟩
          · simp [check_error, hn] at he
      | .tuple [] => simp [check_error] at he
      | .tuple (x :: xs) =>
          match x with
          | .int n =>
              by_cases hn : n < 0
              · exact Or.inr ⟨n, xs, hn, rfl⟩
              · simp [check_error, hn] at he
          | .none | .str _ | .list _ | .tuple _ | .array _ => simp [check_error] at he
    · rintro (⟨n, hn, rfl⟩ | ⟨n, rest, hn, rfl⟩) <;>
        exact ⟨WGFMUError.ofCode n, by simp [check_error, hn]⟩
  · intro n hn
    simp [check_error, Int.not_lt.mpr hn]
  · intro n rest hn
    simp [check_error, Int.not_lt.mpr hn]

theorem check_error_negative_iff_passthrough_witness :
    ((0 : Int) ≤ 10006 ∧ check_error (.int 10006) = .ok (.int 10006)) ∧
    ((0 : Int) ≤ 10000 ∧
      check_error (.tuple [.int 10000, .str "x"]) = .ok (.tuple [.int 10000, .str "x"])) :=
  ⟨⟨by decide, check_error_negative_iff_passthrough.2.1 10006 (by decide)⟩,
   ⟨by decide, check_error_negative_iff_passthrough.2.2 10000 [.str "x"] (by decide)⟩⟩

/-- C2: `handle_wgfmu_response` is exactly `strip_error_code` applied
after `check_error`: validation runs first on the raw result, a result
`(-1, "x")` raises the `WGFMUError` for `-1` before the payload `"x"`
is stripped, and on results accepted by `check_error` the stripped
payload of the validated result is returned. -/
theorem handle_wgfmu_response_is_strip_after_check :
    (∀ r : PyVal, handle_wgfmu_response r = (check_error r).bind strip_error_code) ∧
    handle_wgfmu_response (.tuple [.int (-1), .str "x"]) =
      .error (.wgfmu (WGFMUError.ofCode (-1))) ∧
    (∀ r v : PyVal, check_error r = .ok v → handle_wgfmu_response r = strip_error_code v) := by
  refine ⟨fun r => rfl, by decide, ?_⟩
  intro r v h
  unfold handle_wgfmu_response
  rw [h]
  rfl

theorem handle_wgfmu_response_is_strip_after_check_witness :
    check_error (.tuple [.int 0, .str "data"]) = .ok (.tuple [.int 0, .str "data"]) ∧
    handle_wgfmu_response (.tuple [.int 0, .str "data"]) =
      strip_error_code (.tuple [.int 0, .str "data"]) :=
  ⟨by decide,
   handle_wgfmu_response_is_strip_after_check.2.2 _ _ (by decide)⟩

/-- C3, counterexample: the claim says a result matching neither the
bare-integer shape nor the integer-headed-tuple shape is returned
unchanged, but the empty tuple matches neither shape and is not passed
through — indexing `result[0]` raises `IndexError`. -/
theorem strip_error_code_claim_fails_on_empty_tuple :
    strip_error_code (.tuple []) = .error .indexError ∧
    strip_error_code (.tuple []) ≠ .ok (.tuple []) := by
  refine ⟨rfl, by decide⟩

/-- C3, amended: `strip_error_code`'s wrapper maps every bare integer to
`None`; maps every tuple whose first element is an integer to its
remaining elements — bare if exactly one remains, otherwise an ordered
tuple in original order (lists and strings passing through unmodified,
never flattened); returns every non-tuple non-integer result and every
nonempty tuple whose first element is not an integer unchanged; and on
the empty tuple it raises `IndexError` instead of passing it through. -/
theorem strip_error_code_spec :
    (∀ n : Int, strip_error_code (.int n) = .ok .none) ∧
    (∀ (n : Int) (r : PyVal), strip_error_code (.tuple [.int n, r]) = .ok r) ∧
    (∀ (n : Int) (r1 r2 : PyVal) (rest : List PyVal),
      strip_error_code (.tuple (.int n :: r1 :: r2 :: rest)) = .ok (.tuple (r1 :: r2 :: rest))) ∧
    (∀ n : Int, strip_error_code (.tuple [.int n]) = .ok (.tuple [])) ∧
    (∀ s : String, strip_error_code (.str s) = .ok (.str s)) ∧
    (∀ xs : List PyVal, strip_error_code (.list xs) = .ok (.list xs)) ∧
    (strip_error_code .none = .ok .none) ∧
    (∀ xs : List Rat, strip_error_code (.array xs) = .ok (.array xs)) ∧
    (∀ (x : PyVal) (rest : List PyVal), (∀ m : Int, x ≠ .int m) →
      strip_error_code (.tuple (x :: rest)) = .ok (.tuple (x :: rest))) ∧
    strip_error_code (.tuple []) = .error .indexError := by
  refine ⟨fun n => rfl, fun n r => rfl, fun n r1 r2 rest => rfl, fun n => rfl,
    fun s => rfl, fun xs => rfl, rfl, fun xs => rfl, ?_, rfl⟩
  intro x rest hx
  match x with
  | .int m => exact absurd rfl (hx m)
  | .none | .str _ | .list _ | .tuple _ | .array _ => rfl

theorem strip_error_code_spec_witness :
    (∀ m : Int, PyVal.str "a" ≠ .int m) ∧
    strip_error_code (.tuple [.str "a", .int 1]) = .ok (.tuple [.str "a", .int 1]) :=
  ⟨(fun m h => by cases h),
   strip_error_code_spec.2.2.2.2.2.2.2.2.1 (.str "a") [.int 1] (fun m h => by cases h)⟩

/-- C4: constructing the error for a negative code `c` absent from
`ERROR_MESSAGES` yields `code = c` and the exact fallback message
`"Unknown error code: {c}"`, and the construction is total (it is a
Lean function) — this covers `-9999`, which is a `WGFMUErrorCode`
member but has no table entry. -/
theorem wgfmu_error_unknown_code_fallback (c : Int) (_hneg : c < 0)
    (hmiss : ERROR_MESSAGES c = Option.none) :
    (WGFMUError.ofCode c).code = c ∧
    (WGFMUError.ofCode c).message = "Unknown error code: " ++ toString c := by
  unfold WGFMUError.ofCode
  split <;> simp [hmiss]

theorem wgfmu_error_unknown_code_fallback_witness :
    ((-9999 : Int) < 0 ∧ ERROR_MESSAGES (-9999) = Option.none ∧
      WGFMUErrorCode_member (-9999) = true) ∧
    (WGFMUError.ofCode (-9999)).code = -9999 ∧
    (WGFMUError.ofCode (-9999)).message = "Unknown error code: -9999" := by
  refine ⟨⟨by decide, by decide, by decide⟩, ?_⟩
  have h := wgfmu_error_unknown_code_fallback (-9999) (by decide) (by decide)
  exact ⟨h.1, h.2⟩

/-- C5: for every known negative error code `c` in `-15 … -1`, the
constructed `WGFMUError` carries `code = c` and its message is exactly
the entry of the static `ERROR_MESSAGES` table for `c`. -/
theorem wgfmu_error_known_code_message (c : Int) (h1 : -15 ≤ c) (h2 : c ≤ -1) :
    (WGFMUError.ofCode c).code = c ∧
    some (WGFMUError.ofCode c).message = ERROR_MESSAGES c := by
  interval_cases c <;> exact ⟨rfl, rfl⟩

theorem wgfmu_error_known_code_message_witness :
    ((-15 : Int) ≤ -8 ∧ (-8 : Int) ≤ -1) ∧
    (WGFMUError.ofCode (-8)).code = -8 ∧
    some (WGFMUError.ofCode (-8)).message = ERROR_MESSAGES (-8) :=
  ⟨⟨by decide, by decide⟩, wgfmu_error_known_code_message (-8) (by decide) (by decide)⟩

/-- C6, counterexample: `open_session` belongs to the session-lifecycle
surface, yet the negative status `-5` (`COMMUNICATION_ERROR`) is
converted by it into the silent success `None` — no error is raised. -/
theorem open_session_swallows_negative_code :
    open_session (-5) = .ok .none ∧ ∀ e : PyErr, open_session (-5) ≠ .error e := by
  refine ⟨rfl, ?_⟩
  intro e h
  simp [open_session, strip_error_code] at h

/-- C6, amended: every operation wrapped with `handle_wgfmu_response`
turns a negative status into a raised `WGFMUError` with a non-empty
message; but `open_session` and `get_error_summary` are wrapped only
with `strip_error_code` (deliberately, per the source comment on
`open_session`), so they convert a negative status into a silent
success — `None` and the summary string respectively. -/
theorem negative_codes_raise_except_unchecked_ops :
    (∀ n : Int, n < 0 →
      handle_wgfmu_response (.int n) = .error (.wgfmu (WGFMUError.ofCode n)) ∧
      (∀ rest : List PyVal,
        handle_wgfmu_response (.tuple (.int n :: rest)) =
          .error (.wgfmu (WGFMUError.ofCode n))) ∧
      (WGFMUError.ofCode n).message ≠ "") ∧
    (∀ n : Int, n < 0 → open_session n = .ok .none) ∧
    (∀ (n size : Int) (buffer : String), n < 0 →
      ∃ s : String, get_error_summary n size buffer = .ok (.str s)) := by
  refine ⟨?_, ?_, ?_⟩
  · intro n hn
    refine ⟨?_, ?_, ofCode_message_ne_empty n⟩
    · simp [handle_wgfmu_response, check_error, hn, Except.bind]
    · intro rest
      simp [handle_wgfmu_response, check_error, hn, Except.bind]
  · intro n _hn
    rfl
  · intro n size buffer _hn
    by_cases hs : size > 0
    · refine ⟨buffer, ?_⟩
      unfold get_error_summary
      rw [if_pos hs]
      rfl
    · refine ⟨"No errors found.", ?_⟩
      unfold get_error_summary
      rw [if_neg hs]
      rfl

theorem negative_codes_raise_except_unchecked_ops_witness :
    ((-3 : Int) < 0) ∧
    handle_wgfmu_response (.int (-3)) = .error (.wgfmu (WGFMUError.ofCode (-3))) ∧
    open_session (-3) = .ok .none ∧
    ∃ s : String, get_error_summary (-3) 0 "" = .ok (.str s) :=
  ⟨by decide,
   (negative_codes_raise_except_unchecked_ops.1 (-3) (by decide)).1,
   negative_codes_raise_except_unchecked_ops.2.1 (-3) (by decide),
   negative_codes_raise_except_unchecked_ops.2.2 (-3) 0 "" (by decide)⟩

/-- C7: `add_vectors` raises `ValueError` synchronously when
`time_steps` and `voltages` have unequal lengths, with an empty foreign
call trace — the foreign call is never attempted; with equal lengths it
makes exactly the `WGFMU_addVectors` call and no `ValueError` is ever
produced. -/
theorem add_vectors_length_validation (name : String) (ts vs : List Rat) (lr : Int) :
    (ts.length ≠ vs.length →
      add_vectors name ts vs lr =
        ([], .error (.valueError "time_steps and voltages must have the same length."))) ∧
    (ts.length = vs.length →
      add_vectors name ts vs lr =
        ([.addVectors name ts vs ts.length], handle_wgfmu_response (.int lr)) ∧
      ∀ m : String, (add_vectors name ts vs lr).2 ≠ .error (.valueError m)) := by
  constructor
  · intro hne
    simp [add_vectors, hne]
  · intro heq
    have h1 : add_vectors name ts vs lr =
        ([.addVectors name ts vs ts.length], handle_wgfmu_response (.int lr)) := by
      simp [add_vectors, heq]
    refine ⟨h1, ?_⟩
    intro m
    rw [h1]
    by_cases hlr : lr < 0 <;>
      simp [handle_wgfmu_response, check_error, strip_error_code, hlr, Except.bind]

theorem add_vectors_length_validation_witness :
    (([1, 2, 3] : List Rat).length ≠ ([4, 5] : List Rat).length ∧
      add_vectors "p" [1, 2, 3] [4, 5] 0 =
        ([], .error (.valueError "time_steps and voltages must have the same length."))) ∧
    (([1, 2] : List Rat).length = ([4, 5] : List Rat).length ∧
      add_vectors "p" [1, 2] [4, 5] 0 =
        ([.addVectors "p" [1, 2] [4, 5] 2], handle_wgfmu_response (.int 0))) :=
  ⟨⟨by decide, (add_vectors_length_validation "p" [1, 2, 3] [4, 5] 0).1 (by decide)⟩,
   ⟨by decide, ((add_vectors_length_validation "p" [1, 2] [4, 5] 0).2 (by decide)).1⟩⟩

/-- C8: when the size query reports measured size 0, the read loop of
`get_measurement_data` never runs, so the local `error_code` is unbound
at the return statement and the call fails with `UnboundLocalError`
instead of returning two empty arrays; at a positive reported size
(3 shown) it does return two parallel arrays whose common length equals
the size reported by `_get_measurement_data_size`. -/
theorem get_measurement_data_zero_size_unbound_local :
    get_measurement_data 0 0 (fun _ => (0, 0, 0)) = .error .unboundLocalError ∧
    _get_measurement_data_size 0 3 = .ok (.int 3) ∧
    get_measurement_data 0 3
        (fun i => (0, ([0, 1, 2] : List Rat).getD i 0, ([5, 7, 9] : List Rat).getD i 0)) =
      .ok (.tuple [.array [0, 1, 2], .array [5, 7, 9]]) :=
  ⟨by decide, by decide, by decide⟩

/-- C9: `strip_error_code`'s wrapper distinguishes a bare status code
from a one-element tuple holding only a status code: for every integer
`c` the bare integer becomes `None` while the tuple `(c,)` becomes the
empty tuple — two observably different results. -/
theorem strip_error_code_bare_vs_singleton (c : Int) :
    strip_error_code (.int c) = .ok .none ∧
    strip_error_code (.tuple [.int c]) = .ok (.tuple []) ∧
    PyVal.none ≠ PyVal.tuple [] :=
  ⟨rfl, rfl, by decide⟩

/-- C10: neither wrapper stage is total on the empty tuple: both
`check_error`'s wrapper and `strip_error_code`'s wrapper evaluate
`result[0]` without a length guard and fail with `IndexError` — not a
`WGFMUError` and not a pass-through of the input — so the defensive
return-unchanged fallback is unreachable for the empty tuple. -/
theorem empty_tuple_index_error :
    check_error (.tuple []) = .error .indexError ∧
    strip_error_code (.tuple []) = .error .indexError ∧
    (∀ e : WGFMUError, check_error (.tuple []) ≠ .error (.wgfmu e)) ∧
    check_error (.tuple []) ≠ .ok (.tuple []) ∧
    strip_error_code (.tuple []) ≠ .ok (.tuple []) := by
  refine ⟨rfl, rfl, ?_, by decide, by decide⟩
  intro e h
  simp [check_error] at h

end B1530A
